import Mathlib

/-!
Shallow embedding of `src/controllers/todo_controllers.rs` from the
raccoon repository: a minimal authenticated CRUD API for per-user Todo
items backed by a Postgres table.  The four request handlers
(`add_todo`, `edit_todo`, `get_todo_by_id`, `get_all_todo`) are modelled
as pure functions over an explicit database state; nondeterministic
inputs of the real code (the freshly minted UUID, the value of `NOW()`)
are passed as explicit arguments.  Machine UUIDs are modelled as natural
numbers; the JWT claim id stays a string and is parsed exactly where the
Rust code calls `Uuid::parse_str(..).unwrap()`.
-/

set_option autoImplicit false

namespace Raccoon

/-- A UUID value (the 128-bit payload), modelled as a natural number. -/
abbrev Uuid := Nat

/-- Value of a single hexadecimal digit character, if it is one. -/
def hexVal (c : Char) : Option Nat :=
  if '0' ≤ c ∧ c ≤ '9' then some (c.toNat - '0'.toNat)
  else if 'a' ≤ c ∧ c ≤ 'f' then some (c.toNat - 'a'.toNat + 10)
  else if 'A' ≤ c ∧ c ≤ 'F' then some (c.toNat - 'A'.toNat + 10)
  else none

/-- Interpret a list of characters as a big-endian hexadecimal number;
`none` if any character is not a hex digit. -/
def hexToNat (cs : List Char) : Option Nat :=
  cs.foldl
    (fun acc c =>
      match acc, hexVal c with
      | some n, some d => some (n * 16 + d)
      | _, _ => none)
    (some 0)

/-- Embedding of `uuid::Uuid::parse_str` as used by the handlers: accepts
the simple form (32 hex digits) and the hyphenated form
(8-4-4-4-12 hex digit groups); anything else fails to parse. -/
def Uuid.parse_str (s : String) : Option Uuid :=
  if s.length = 32 then hexToNat s.toList
  else if s.length = 36 then
    match s.split (fun c => c = '-') with
    | [a, b, c, d, e] =>
      if a.length = 8 ∧ b.length = 4 ∧ c.length = 4 ∧ d.length = 4 ∧
          e.length = 12 then
        hexToNat (a.toList ++ b.toList ++ c.toList ++ d.toList ++ e.toList)
      else none
    | _ => none
  else none

/-- The authenticated identity extracted from the bearer token
(`shared/jwt_schema.rs`, not under `src/`); the handlers only use the
`id` claim, a string. -/
structure JwtClaims where
  id : String
  deriving Repr, DecidableEq

/-- A row of the persisted todo table, mirroring the columns bound by the
SQL statements in the controllers: `id`, `title`, `description`,
`fk_user_id`, `last_update` (timestamps modelled as naturals). -/
structure TodoModel where
  id : Uuid
  title : String
  description : String
  fk_user_id : Uuid
  last_update : Nat
  deriving Repr, DecidableEq

/-- Modelled from the spec: the request payload (`models/todo.rs`, not
under `src/`).  Edit allows each field to be absent — absence preserves
the stored value via `COALESCE` — so both fields are optional strings. -/
structure TodoInformation where
  title : Option String
  description : Option String
  deriving Repr, DecidableEq

/-- Modelled from the spec: `EnumerateFields::collect_as_strings`
(`shared/api_response.rs`, not under `src/`) flattens the payload to a
mapping from field name to string value (absent fields flatten to the
empty string). -/
def collect_as_strings (payload : TodoInformation) : List (String × String) :=
  [("title", payload.title.getD ""),
   ("description", payload.description.getD "")]

/-- Modelled from the spec: pagination query parameters
(`shared/api_response.rs`, not under `src/`): `page` and a number of
rows per page, both non-negative integers. -/
structure Pagination where
  page : Nat
  no_of_rows : Nat
  deriving Repr, DecidableEq

/-- Modelled from the spec: defaults apply when the pagination query is
absent; the concrete default values are not fixed by the spec, page 0
with 10 rows is used as a representative choice. -/
instance : Inhabited Pagination := ⟨⟨0, 10⟩⟩

/-- The uniform success envelope (`shared/api_response.rs`): a boolean
flag, a message, and an optional payload. -/
structure ApiSuccessResponse (T : Type) where
  success : Bool
  message : String
  data : Option T
  deriving Repr, DecidableEq

/-- The error envelope (`shared/api_response.rs`, not under `src/`): the
spec surfaces exactly two kinds, ServerError and NotFound, each carrying
the underlying error text. -/
inductive ApiErrorResponse where
  | ServerError (error : String)
  | NotFound (error : String)
  deriving Repr, DecidableEq

/-- Modelled from the spec: the HTTP status attached to each error kind
(500 for ServerError, 404 for NotFound, per the interface table). -/
def ApiErrorResponse.statusCode : ApiErrorResponse → Nat
  | .ServerError _ => 500
  | .NotFound _ => 404

/-- Storage-layer failures observable through the sqlx client in this
model: the row-not-found error of `fetch_one`, a reference to a relation
absent from the schema, and a null bound to a non-null column. -/
inductive DbError where
  | rowNotFound
  | undefinedTable (table : String)
  | notNullViolation (column : String)
  deriving Repr, DecidableEq

/-- The driver error text (`error_message.to_string()`), forwarded
verbatim by every handler. -/
def DbError.toString : DbError → String
  | .rowNotFound =>
      "no rows returned by a query that expected to return at least one row"
  | .undefinedTable t => "relation " ++ t ++ " does not exist"
  | .notNullViolation c =>
      "null value in column " ++ c ++ " violates not-null constraint"

/-- The relational store: a mapping from relation name to its rows.
Modelled from the spec: the persisted schema has one table (the
`todo_list` relation named by three of the four SQL statements). -/
structure Database where
  tables : List (String × List TodoModel)
  deriving Repr, DecidableEq

/-- Rows of the named relation, `none` when the relation does not exist. -/
def Database.getTable (db : Database) (name : String) :
    Option (List TodoModel) :=
  (db.tables.find? (fun t => t.1 = name)).map (fun t => t.2)

/-- Replace the rows of the named relation (no-op when absent). -/
def Database.setTable (db : Database) (name : String)
    (rows : List TodoModel) : Database :=
  ⟨db.tables.map (fun t => if t.1 = name then (name, rows) else t)⟩

/-- sqlx `fetch_one` applied to the rows produced by a statement: the
first row, or a row-not-found error when the statement produced none. -/
def fetch_one : List TodoModel → Except DbError TodoModel
  | [] => .error .rowNotFound
  | r :: _ => .ok r

/-- The kind of SQL statement a handler issues. -/
inductive SqlAction where
  | insert
  | update
  | select
  deriving Repr, DecidableEq

/-- Shape of a handler's single parameterized statement: its action and
the relation it names. -/
structure SqlStatement where
  action : SqlAction
  table : String
  deriving Repr, DecidableEq

/-- The statement of `add_todo`:
INSERT INTO todo_list (id, title, description, fk_user_id) VALUES
($1, $2, $3, $4) ON CONFLICT (id) DO NOTHING RETURNING *. -/
def add_todo_stmt : SqlStatement := ⟨.insert, "todo_list"⟩

/-- The statement of `edit_todo`:
UPDATE todo_list SET title = COALESCE($1, title), description =
COALESCE($2, description), last_update = NOW() WHERE fk_user_id = $3 AND
id = $4.  Note: no RETURNING clause. -/
def edit_todo_stmt : SqlStatement := ⟨.update, "todo_list"⟩

/-- The statement of `get_todo_by_id`:
SELECT * FROM Todo WHERE id = $1 AND fk_user_id = $2.  Note the relation
name `Todo`, unlike the `todo_list` used everywhere else. -/
def get_todo_by_id_stmt : SqlStatement := ⟨.select, "Todo"⟩

/-- The statement of `get_all_todo`:
SELECT * FROM todo_list WHERE fk_user_id = $3 LIMIT $1 OFFSET $2. -/
def get_all_todo_stmt : SqlStatement := ⟨.select, "todo_list"⟩

/-- The WHERE predicate of the get-by-id statement:
id = $1 AND fk_user_id = $2. -/
def getMatches (note_id owner : Uuid) (r : TodoModel) : Bool :=
  r.id == note_id && r.fk_user_id == owner

/-- The WHERE predicate of the edit statement:
fk_user_id = $3 AND id = $4. -/
def rowMatches (owner todo_id : Uuid) (r : TodoModel) : Bool :=
  r.fk_user_id == owner && r.id == todo_id

/-- The SET clause of the edit statement applied to a matched row:
title = COALESCE($1, title), description = COALESCE($2, description),
last_update = NOW(). -/
def updateRow (payload : TodoInformation) (now : Nat) (r : TodoModel) :
    TodoModel :=
  { r with
      title := payload.title.getD r.title
      description := payload.description.getD r.description
      last_update := now }

/-- Execution of the insert statement of `add_todo` against the store:
on an id conflict the insert is a no-op returning no row; otherwise the
row is appended and returned.  Binding an absent title or description
inserts NULL into a non-null column (schema modelled from the spec:
`title` and `description` are non-empty text columns). -/
def runInsert (db : Database) (todo_id : Uuid)
    (title description : Option String) (owner : Uuid) (now : Nat) :
    Except DbError (Database × List TodoModel) :=
  match db.getTable "todo_list" with
  | none => .error (.undefinedTable "todo_list")
  | some rows =>
    match title, description with
    | some t, some d =>
      if rows.any (fun r => r.id == todo_id) then .ok (db, [])
      else
        let row : TodoModel := ⟨todo_id, t, d, owner, now⟩
        .ok (db.setTable "todo_list" (rows ++ [row]), [row])
    | none, _ => .error (.notNullViolation "title")
    | _, none => .error (.notNullViolation "description")

/-- Execution of the update statement of `edit_todo` against the store:
every row matching both owner and id is rewritten by the SET clause; the
statement has no RETURNING clause, so it produces zero result rows. -/
def runUpdate (db : Database) (payload : TodoInformation)
    (owner todo_id : Uuid) (now : Nat) :
    Except DbError (Database × List TodoModel) :=
  match db.getTable "todo_list" with
  | none => .error (.undefinedTable "todo_list")
  | some rows =>
    let rows2 := rows.map
      (fun r => if rowMatches owner todo_id r then updateRow payload now r
                else r)
    .ok (db.setTable "todo_list" rows2, [])

/-- Execution of the select statement of `get_todo_by_id`: all rows of
relation `Todo` matching both id and owner. -/
def runSelectById (db : Database) (note_id owner : Uuid) :
    Except DbError (List TodoModel) :=
  match db.getTable "Todo" with
  | none => .error (.undefinedTable "Todo")
  | some rows => .ok (rows.filter (getMatches note_id owner))

/-- Execution of the select statement of `get_all_todo`: rows of
`todo_list` owned by the user, after OFFSET and LIMIT. -/
def runSelectAll (db : Database) (owner : Uuid) (limit offset : Nat) :
    Except DbError (List TodoModel) :=
  match db.getTable "todo_list" with
  | none => .error (.undefinedTable "todo_list")
  | some rows =>
    .ok (((rows.filter (fun r => r.fk_user_id == owner)).drop offset).take
          limit)

/-- The validation loop at the top of `add_todo`: one error string per
payload field whose flattened value is empty. -/
def emptyFieldErrors (payload : TodoInformation) : List String :=
  (collect_as_strings payload).filterMap
    (fun kv => if kv.2.isEmpty then some (kv.1 ++ " is empty") else none)

/-- Outcome of a handler: a success status with envelope, an error
envelope, or a panic (an `unwrap` failing before any response is built). -/
inductive HandlerOutcome (T : Type) where
  | ok (status : Nat) (body : ApiSuccessResponse T)
  | err (e : ApiErrorResponse)
  | panicked
  deriving Repr, DecidableEq

/-- The `json!` object built by add/edit: a single `todo` field. -/
structure TodoEnvelope where
  todo : TodoModel
  deriving Repr, DecidableEq

/-- The `json!` object built by the list handler: the fetched array plus
the echoed page and rows-per-page as strings. -/
structure TodoListEnvelope where
  todo : List TodoModel
  currentPage : String
  noOfRows : String
  deriving Repr, DecidableEq

/-- Handler `add_todo` (lines 18-66): computes (and never reads) the
empty-field validation errors, unwraps the parsed user id, issues the
insert, and maps the fetched row to a 201 envelope or any failure to a
ServerError envelope.  The freshly generated `Uuid::new_v4` and the
statement's `NOW()` are the explicit `todo_id` and `now` arguments. -/
def add_todo (authenticated_user : JwtClaims) (payload : TodoInformation)
    (database : Database) (todo_id : Uuid) (now : Nat) :
    HandlerOutcome TodoEnvelope × Database :=
  let _bad_request_errors := emptyFieldErrors payload
  match Uuid.parse_str authenticated_user.id with
  | none => (.panicked, database)
  | some owner =>
    match runInsert database todo_id payload.title payload.description
        owner now with
    | .error e => (.err (.ServerError e.toString), database)
    | .ok (db2, rows) =>
      match fetch_one rows with
      | .error e => (.err (.ServerError e.toString), db2)
      | .ok todo =>
        (.ok 201 ⟨true, "Todo successfully added ", some ⟨todo⟩⟩, db2)

/-- Handler `edit_todo` (lines 73-106): unwraps the parsed user id,
issues the coalescing update scoped by owner and id, then `fetch_one`
on its (empty) result set; a fetched row would yield a 200 envelope and
any failure yields a NotFound envelope. -/
def edit_todo (authenticated_user : JwtClaims) (todo_id : Uuid)
    (payload : TodoInformation) (database : Database) (now : Nat) :
    HandlerOutcome TodoEnvelope × Database :=
  match Uuid.parse_str authenticated_user.id with
  | none => (.panicked, database)
  | some owner =>
    match runUpdate database payload owner todo_id now with
    | .error e => (.err (.NotFound e.toString), database)
    | .ok (db2, rows) =>
      match fetch_one rows with
      | .error e => (.err (.NotFound e.toString), db2)
      | .ok todo =>
        (.ok 200 ⟨true, "Todo successfully updated", some ⟨todo⟩⟩, db2)

/-- Handler `get_todo_by_id` (lines 112-141): unwraps the parsed user
id, selects from relation `Todo` by id and owner, and maps the fetched
row to a 200 envelope or any failure to a NotFound envelope. -/
def get_todo_by_id (authenticated_user : JwtClaims) (note_id : Uuid)
    (database : Database) : HandlerOutcome TodoModel :=
  match Uuid.parse_str authenticated_user.id with
  | none => .panicked
  | some owner =>
    match runSelectById database note_id owner with
    | .error e => .err (.NotFound e.toString)
    | .ok rows =>
      match fetch_one rows with
      | .error e => .err (.NotFound e.toString)
      | .ok todo => .ok 200 ⟨true, "Todo successfully retrieved", some todo⟩

/-- Handler `get_all_todo` (lines 149-191): defaults the pagination when
absent, unwraps the parsed user id, selects the user's rows with LIMIT
`no_of_rows` and OFFSET `page * no_of_rows`, and maps the fetched array
to a 200 envelope or any failure to a NotFound envelope. -/
def get_all_todo (authenticated_user : JwtClaims)
    (pagination : Option Pagination) (database : Database) :
    HandlerOutcome TodoListEnvelope :=
  let pg := pagination.getD default
  match Uuid.parse_str authenticated_user.id with
  | none => .panicked
  | some owner =>
    match runSelectAll database owner pg.no_of_rows
        (pg.page * pg.no_of_rows) with
    | .error e => .err (.NotFound e.toString)
    | .ok todo_array =>
      .ok 200 ⟨true, "Todo successfully updated",
        some ⟨todo_array, Nat.repr pg.page, Nat.repr pg.no_of_rows⟩⟩

/-! ## Claim theorems -/

/-- C1: for every get or edit request whose authenticated user identifier
differs from the stored item's owner identifier, the operation fails with
a NotFound error and never returns the item's data: the issued statements
match a row only when both the todo id and the owner id equal the
request's values. -/
theorem C1_ownership_isolation (u : JwtClaims) (attacker : Uuid)
    (item : TodoModel) (db : Database) (payload : TodoInformation)
    (now : Nat) (getRows : List TodoModel)
    (hp : Uuid.parse_str u.id = some attacker)
    (hne : attacker ≠ item.fk_user_id)
    (hget : db.getTable "Todo" = some getRows)
    (huniq : ∀ r ∈ getRows, r.id = item.id → r.fk_user_id = item.fk_user_id) :
    (∃ e, get_todo_by_id u item.id db = .err (.NotFound e)) ∧
    (∃ e db2, edit_todo u item.id payload db now = (.err (.NotFound e), db2)) ∧
    (∀ r : TodoModel, getMatches item.id attacker r = true ↔
      r.id = item.id ∧ r.fk_user_id = attacker) ∧
    (∀ r : TodoModel, rowMatches attacker item.id r = true ↔
      r.fk_user_id = attacker ∧ r.id = item.id) ∧
    getMatches item.id attacker item = false ∧
    rowMatches attacker item.id item = false := by
  have hchar : ∀ r : TodoModel, getMatches item.id attacker r = true ↔
      r.id = item.id ∧ r.fk_user_id = attacker := by
    intro r
    simp [getMatches]
  have hfilter : getRows.filter (getMatches item.id attacker) = [] := by
    rw [List.filter_eq_nil_iff]
    intro r hr hmatch
    rcases (hchar r).mp hmatch with ⟨hid, hown⟩
    exact hne (hown ▸ huniq r hr hid)
  have hchar2 : ∀ r : TodoModel, rowMatches attacker item.id r = true ↔
      r.fk_user_id = attacker ∧ r.id = item.id := by
    intro r
    simp [rowMatches]
  refine ⟨?_, ?_, hchar, hchar2, ?_, ?_⟩
  · refine ⟨DbError.toString .rowNotFound, ?_⟩
    simp [get_todo_by_id, hp, runSelectById, hget, hfilter, fetch_one]
  · simp only [edit_todo, hp]
    cases htab : db.getTable "todo_list" with
    | none =>
        refine ⟨DbError.toString (.undefinedTable "todo_list"), db, ?_⟩
        simp [runUpdate, htab]
    | some rows =>
        refine ⟨DbError.toString .rowNotFound,
          db.setTable "todo_list" (rows.map (fun r =>
            if rowMatches attacker item.id r then updateRow payload now r
            else r)), ?_⟩
        simp [runUpdate, htab, fetch_one]
  · cases hmatch : getMatches item.id attacker item with
    | false => rfl
    | true =>
        rcases (hchar item).mp hmatch with ⟨-, hown⟩
        exact absurd hown.symm hne
  · cases hmatch : rowMatches attacker item.id item with
    | false => rfl
    | true =>
        rcases (hchar2 item).mp hmatch with ⟨hown, -⟩
        exact absurd hown.symm hne

/-- C1 witness: user 2 requesting user 1's item 5 gets NotFound. -/
theorem C1_ownership_isolation_witness :
    ∃ e, get_todo_by_id ⟨"00000000000000000000000000000002"⟩ 5
        ⟨[("todo_list", [⟨5, "t", "d", 1, 0⟩]), ("Todo", [⟨5, "t", "d", 1, 0⟩])]⟩ =
      .err (.NotFound e) :=
  (C1_ownership_isolation ⟨"00000000000000000000000000000002"⟩ 2
    ⟨5, "t", "d", 1, 0⟩
    ⟨[("todo_list", [⟨5, "t", "d", 1, 0⟩]), ("Todo", [⟨5, "t", "d", 1, 0⟩])]⟩
    ⟨none, none⟩ 0 [⟨5, "t", "d", 1, 0⟩]
    (by decide) (by decide) (by decide) (by decide)).1

/-- C2: the claim says an edit matching an existing row owned by the
authenticated user returns HTTP 200 with the updated item.  The code's
UPDATE statement has no RETURNING clause, so `fetch_one` finds no row
and the handler answers NotFound even though the row matched and was
updated (visible in the returned database state). -/
theorem C2_edit_match_returns_not_found :
    rowMatches 1 5 ⟨5, "old title", "old desc", 1, 0⟩ = true ∧
    edit_todo ⟨"00000000000000000000000000000001"⟩ 5 ⟨some "new", none⟩
        ⟨[("todo_list", [⟨5, "old title", "old desc", 1, 0⟩])]⟩ 9 =
      (.err (.NotFound (DbError.toString .rowNotFound)),
       ⟨[("todo_list", [⟨5, "new", "old desc", 1, 9⟩])]⟩) := by
  decide

/-- C3: the create handler computes the empty-field validation errors
but never uses them: even when the error list is nonempty, the insert
proceeds and the empty-fielded row is persisted with a 201 response. -/
theorem C3_validation_never_blocks (u : JwtClaims)
    (payload : TodoInformation) (db : Database) (rows : List TodoModel)
    (tid now owner : Nat) (t d : String)
    (hbad : emptyFieldErrors payload ≠ [])
    (hp : Uuid.parse_str u.id = some owner)
    (ht : payload.title = some t) (hd : payload.description = some d)
    (htab : db.getTable "todo_list" = some rows)
    (hfresh : ∀ r ∈ rows, r.id ≠ tid) :
    add_todo u payload db tid now =
      (.ok 201 ⟨true, "Todo successfully added ",
        some ⟨⟨tid, t, d, owner, now⟩⟩⟩,
       db.setTable "todo_list" (rows ++ [⟨tid, t, d, owner, now⟩])) := by
  have hany : rows.any (fun r => r.id == tid) = false := by
    rw [List.any_eq_false]
    intro r hr
    simpa using hfresh r hr
  simp [add_todo, hp, runInsert, htab, ht, hd, hany, fetch_one]

/-- C3 witness: a payload with an empty title (one validation error)
still gets inserted and answered with 201. -/
theorem C3_validation_never_blocks_witness :
    add_todo ⟨"00000000000000000000000000000001"⟩ ⟨some "", some "d"⟩
        ⟨[("todo_list", [⟨5, "t0", "d0", 1, 0⟩])]⟩ 7 9 =
      (.ok 201 ⟨true, "Todo successfully added ",
        some ⟨⟨7, "", "d", 1, 9⟩⟩⟩,
       Database.setTable ⟨[("todo_list", [⟨5, "t0", "d0", 1, 0⟩])]⟩
         "todo_list" ([⟨5, "t0", "d0", 1, 0⟩] ++ [⟨7, "", "d", 1, 9⟩])) :=
  C3_validation_never_blocks ⟨"00000000000000000000000000000001"⟩
    ⟨some "", some "d"⟩ ⟨[("todo_list", [⟨5, "t0", "d0", 1, 0⟩])]⟩
    [⟨5, "t0", "d0", 1, 0⟩] 7 9 1 "" "d"
    (by decide) (by decide) rfl rfl (by decide) (by decide)

/-- C4: the claim says all four operations issue their SQL against the
same single persisted table.  Three statements name `todo_list`, but the
get-by-id statement names a different relation `Todo`; against the
spec's single-table schema (only `todo_list` exists), a get-by-id
request fails even when a matching owned row is present. -/
theorem C4_get_by_id_targets_different_table :
    add_todo_stmt.table = "todo_list" ∧
    edit_todo_stmt.table = "todo_list" ∧
    get_all_todo_stmt.table = "todo_list" ∧
    get_todo_by_id_stmt.table = "Todo" ∧
    get_todo_by_id_stmt.table ≠ add_todo_stmt.table ∧
    get_todo_by_id ⟨"00000000000000000000000000000001"⟩ 5
        ⟨[("todo_list", [⟨5, "t", "d", 1, 0⟩])]⟩ =
      .err (.NotFound (DbError.toString (.undefinedTable "Todo"))) := by
  decide

/-- C5: the create handler returns 201 with the persisted item when the
insert returns a row; when the insert returns no row (the id-collision
case) or errors, it returns a ServerError (status 500) carrying the
underlying storage error text. -/
theorem C5_add_todo_outcomes (u : JwtClaims) (payload : TodoInformation)
    (db : Database) (tid now owner : Nat)
    (hp : Uuid.parse_str u.id = some owner) :
    (∀ db2 row rest,
      runInsert db tid payload.title payload.description owner now =
        .ok (db2, row :: rest) →
      add_todo u payload db tid now =
        (.ok 201 ⟨true, "Todo successfully added ", some ⟨row⟩⟩, db2)) ∧
    (∀ db2,
      runInsert db tid payload.title payload.description owner now =
        .ok (db2, []) →
      add_todo u payload db tid now =
        (.err (.ServerError (DbError.toString .rowNotFound)), db2) ∧
      ApiErrorResponse.statusCode
        (.ServerError (DbError.toString .rowNotFound)) = 500) ∧
    (∀ e,
      runInsert db tid payload.title payload.description owner now =
        .error e →
      add_todo u payload db tid now =
        (.err (.ServerError (DbError.toString e)), db) ∧
      ApiErrorResponse.statusCode (.ServerError (DbError.toString e)) = 500) := by
  refine ⟨?_, ?_, ?_⟩
  · intro db2 row rest h
    simp [add_todo, hp, h, fetch_one]
  · intro db2 h
    exact ⟨by simp [add_todo, hp, h, fetch_one], rfl⟩
  · intro e h
    exact ⟨by simp [add_todo, hp, h], rfl⟩

/-- C5 witness: inserting with an already-present id returns no row and
the handler answers with a 500 ServerError carrying the driver text. -/
theorem C5_add_todo_outcomes_witness :
    add_todo ⟨"00000000000000000000000000000001"⟩ ⟨some "x", some "y"⟩
        ⟨[("todo_list", [⟨5, "t", "d", 1, 0⟩])]⟩ 5 9 =
      (.err (.ServerError (DbError.toString .rowNotFound)),
       ⟨[("todo_list", [⟨5, "t", "d", 1, 0⟩])]⟩) ∧
    ApiErrorResponse.statusCode
      (.ServerError (DbError.toString .rowNotFound)) = 500 :=
  (C5_add_todo_outcomes ⟨"00000000000000000000000000000001"⟩
    ⟨some "x", some "y"⟩ ⟨[("todo_list", [⟨5, "t", "d", 1, 0⟩])]⟩ 5 9 1
    (by decide)).2.1 ⟨[("todo_list", [⟨5, "t", "d", 1, 0⟩])]⟩ rfl

/-- C6 counterexample: the claim says a list request by a user owning
zero matching rows returns a not-found error; in the code `fetch_all`
yields an empty vector and the handler answers 200 success with an
empty list (here user 1 owns nothing — the only row belongs to user 2). -/
theorem C6_zero_rows_counterexample :
    get_all_todo ⟨"00000000000000000000000000000001"⟩ (some ⟨0, 10⟩)
        ⟨[("todo_list", [⟨5, "t", "d", 2, 0⟩])]⟩ =
      .ok 200 ⟨true, "Todo successfully updated", some ⟨[], "0", "10"⟩⟩ := by
  decide

/-- C6 amended: a list request by a user owning zero matching rows
returns HTTP 200 success with an empty list and the echoed pagination;
NotFound arises only when the query itself fails. -/
theorem C6_zero_rows_success (u : JwtClaims) (db : Database)
    (rows : List TodoModel) (owner : Nat) (pg : Pagination)
    (hp : Uuid.parse_str u.id = some owner)
    (htab : db.getTable "todo_list" = some rows)
    (hnone : rows.filter (fun r => r.fk_user_id == owner) = []) :
    get_all_todo u (some pg) db =
      .ok 200 ⟨true, "Todo successfully updated",
        some ⟨[], Nat.repr pg.page, Nat.repr pg.no_of_rows⟩⟩ := by
  simp [get_all_todo, runSelectAll, hp, htab, hnone]

/-- C6 witness: the amended statement instantiated at a store whose only
row belongs to another user. -/
theorem C6_zero_rows_success_witness :
    get_all_todo ⟨"00000000000000000000000000000001"⟩ (some ⟨2, 7⟩)
        ⟨[("todo_list", [⟨5, "t", "d", 2, 0⟩])]⟩ =
      .ok 200 ⟨true, "Todo successfully updated", some ⟨[], "2", "7"⟩⟩ :=
  C6_zero_rows_success ⟨"00000000000000000000000000000001"⟩
    ⟨[("todo_list", [⟨5, "t", "d", 2, 0⟩])]⟩ [⟨5, "t", "d", 2, 0⟩] 1 ⟨2, 7⟩
    (by decide) (by decide) (by decide)

/-- C7: a list request with page P and rowsPerPage N issues the query
with OFFSET P * N and LIMIT N, so the returned list is the slice
[P*N, P*N+N) of the user's rows in store order: its i-th element (i < N)
is element P*N + i of the owner's filtered rows, and it has at most N
elements. -/
theorem C7_pagination_slice (u : JwtClaims) (db : Database)
    (rows : List TodoModel) (owner P N : Nat)
    (hp : Uuid.parse_str u.id = some owner)
    (htab : db.getTable "todo_list" = some rows) :
    get_all_todo u (some ⟨P, N⟩) db =
      .ok 200 ⟨true, "Todo successfully updated",
        some ⟨((rows.filter (fun r => r.fk_user_id == owner)).drop
                (P * N)).take N,
          Nat.repr P, Nat.repr N⟩⟩ ∧
    (∀ i, i < N →
      ((((rows.filter (fun r => r.fk_user_id == owner)).drop (P * N)).take
          N).get? i) =
        (rows.filter (fun r => r.fk_user_id == owner)).get? (P * N + i)) ∧
    ((((rows.filter (fun r => r.fk_user_id == owner)).drop (P * N)).take
        N).length) ≤ N := by
  refine ⟨?_, ?_, ?_⟩
  · simp [get_all_todo, runSelectAll, hp, htab]
  · intro i hi
    rw [List.get?_take hi, List.get?_drop]
  · simpa using List.length_take_le N _

/-- C7 witness: with three owned rows, page 1 and two rows per page
return exactly the third row. -/
theorem C7_pagination_slice_witness :
    get_all_todo ⟨"00000000000000000000000000000001"⟩ (some ⟨1, 2⟩)
        ⟨[("todo_list",
           [⟨5, "a", "da", 1, 0⟩, ⟨6, "b", "db", 1, 0⟩,
            ⟨7, "c", "dc", 1, 0⟩])]⟩ =
      .ok 200 ⟨true, "Todo successfully updated",
        some ⟨(([⟨5, "a", "da", 1, 0⟩, ⟨6, "b", "db", 1, 0⟩,
                 ⟨7, "c", "dc", 1, 0⟩].filter
                  (fun r => r.fk_user_id == 1)).drop (1 * 2)).take 2,
          "1", "2"⟩⟩ :=
  (C7_pagination_slice ⟨"00000000000000000000000000000001"⟩
    ⟨[("todo_list",
       [⟨5, "a", "da", 1, 0⟩, ⟨6, "b", "db", 1, 0⟩, ⟨7, "c", "dc", 1, 0⟩])]⟩
    [⟨5, "a", "da", 1, 0⟩, ⟨6, "b", "db", 1, 0⟩, ⟨7, "c", "dc", 1, 0⟩]
    1 1 2 (by decide) (by decide)).1

/-- C8: an edit supplying only the title rewrites every matched row's
title, refreshes last_update to the current time, and leaves the
description, id and owner untouched; unmatched rows are unchanged. -/
theorem C8_title_only_edit_preserves_description (u : JwtClaims)
    (payload : TodoInformation) (db : Database) (rows : List TodoModel)
    (tid now owner : Nat) (t : String)
    (hp : Uuid.parse_str u.id = some owner)
    (htab : db.getTable "todo_list" = some rows)
    (ht : payload.title = some t) (hd : payload.description = none) :
    (edit_todo u tid payload db now).2 =
      db.setTable "todo_list"
        (rows.map (fun r =>
          if rowMatches owner tid r then
            { r with title := t, last_update := now }
          else r)) ∧
    (∀ r : TodoModel,
      (updateRow payload now r).description = r.description ∧
      (updateRow payload now r).title = t ∧
      (updateRow payload now r).last_update = now ∧
      (updateRow payload now r).id = r.id ∧
      (updateRow payload now r).fk_user_id = r.fk_user_id) := by
  have hfun : (fun r => if rowMatches owner tid r then updateRow payload now r
      else r) =
      (fun r : TodoModel => if rowMatches owner tid r then
        { r with title := t, last_update := now } else r) := by
    funext r
    simp [updateRow, ht, hd]
  constructor
  · simp [edit_todo, hp, runUpdate, htab, fetch_one, hfun]
  · intro r
    simp [updateRow, ht, hd]

/-- C8 witness: editing item 5 with only a title keeps its stored
description and bumps last_update. -/
theorem C8_title_only_edit_witness :
    (edit_todo ⟨"00000000000000000000000000000001"⟩ 5 ⟨some "new", none⟩
        ⟨[("todo_list", [⟨5, "old", "keep me", 1, 0⟩])]⟩ 9).2 =
      Database.setTable ⟨[("todo_list", [⟨5, "old", "keep me", 1, 0⟩])]⟩
        "todo_list"
        ([⟨5, "old", "keep me", 1, 0⟩].map (fun r =>
          if rowMatches 1 5 r then { r with title := "new", last_update := 9 }
          else r)) :=
  (C8_title_only_edit_preserves_description
    ⟨"00000000000000000000000000000001"⟩ ⟨some "new", none⟩
    ⟨[("todo_list", [⟨5, "old", "keep me", 1, 0⟩])]⟩
    [⟨5, "old", "keep me", 1, 0⟩] 5 9 1 "new"
    (by decide) (by decide) rfl rfl).1

/-- C9: when the authenticated user's id claim does not parse as a UUID,
every one of the four handlers panics (the unwrap on the parse result)
instead of producing any response envelope. -/
theorem C9_unparseable_claim_panics (u : JwtClaims)
    (payload : TodoInformation) (db : Database) (tid now : Nat)
    (pg : Option Pagination)
    (hp : Uuid.parse_str u.id = none) :
    (add_todo u payload db tid now).1 = .panicked ∧
    (edit_todo u tid payload db now).1 = .panicked ∧
    get_todo_by_id u tid db = .panicked ∧
    get_all_todo u pg db = .panicked := by
  refine ⟨?_, ?_, ?_, ?_⟩ <;>
    simp [add_todo, edit_todo, get_todo_by_id, get_all_todo, hp]

/-- C9 witness: the id claim string "not-a-uuid" fails to parse and all
four handlers panic on it. -/
theorem C9_unparseable_claim_panics_witness :
    (add_todo ⟨"not-a-uuid"⟩ ⟨some "a", some "b"⟩ ⟨[("todo_list", [])]⟩
        7 9).1 = .panicked ∧
    (edit_todo ⟨"not-a-uuid"⟩ 7 ⟨some "a", some "b"⟩ ⟨[("todo_list", [])]⟩
        9).1 = .panicked ∧
    get_todo_by_id ⟨"not-a-uuid"⟩ 7 ⟨[("todo_list", [])]⟩ = .panicked ∧
    get_all_todo ⟨"not-a-uuid"⟩ (some ⟨0, 10⟩) ⟨[("todo_list", [])]⟩ =
      .panicked :=
  C9_unparseable_claim_panics ⟨"not-a-uuid"⟩ ⟨some "a", some "b"⟩
    ⟨[("todo_list", [])]⟩ 7 9 (some ⟨0, 10⟩) (by decide)

/-- An outcome respects the success-envelope invariant when, whenever it
is a success, the envelope's flag is true and its data is populated. -/
def successEnvelopeOk {T : Type} : HandlerOutcome T → Prop
  | .ok _ b => b.success = true ∧ b.data.isSome = true
  | .err _ => True
  | .panicked => True

/-- C10: every success outcome any of the four handlers produces has its
success flag true and its data field populated; the envelope's optional
data is never absent on a success path. -/
theorem C10_success_envelope_invariant (u : JwtClaims)
    (p : TodoInformation) (db : Database) (tid now : Nat)
    (pg : Option Pagination) :
    successEnvelopeOk (add_todo u p db tid now).1 ∧
    successEnvelopeOk (edit_todo u tid p db now).1 ∧
    successEnvelopeOk (get_todo_by_id u tid db) ∧
    successEnvelopeOk (get_all_todo u pg db) := by
  refine ⟨?_, ?_, ?_, ?_⟩
  · simp only [add_todo]
    repeat' split
    all_goals trivial
  · simp only [edit_todo]
    repeat' split
    all_goals trivial
  · simp only [get_todo_by_id]
    repeat' split
    all_goals trivial
  · simp only [get_all_todo]
    repeat' split
    all_goals trivial

/-- C10 witness: the invariant at a concrete input on which the get and
list handlers both succeed. -/
theorem C10_success_envelope_invariant_witness :
    successEnvelopeOk
      (add_todo ⟨"00000000000000000000000000000001"⟩ ⟨some "a", some "b"⟩
        ⟨[("todo_list", []), ("Todo", [⟨5, "t", "d", 1, 0⟩])]⟩ 5 9).1 ∧
    successEnvelopeOk
      (edit_todo ⟨"00000000000000000000000000000001"⟩ 5 ⟨some "a", some "b"⟩
        ⟨[("todo_list", []), ("Todo", [⟨5, "t", "d", 1, 0⟩])]⟩ 9).1 ∧
    successEnvelopeOk
      (get_todo_by_id ⟨"00000000000000000000000000000001"⟩ 5
        ⟨[("todo_list", []), ("Todo", [⟨5, "t", "d", 1, 0⟩])]⟩) ∧
    successEnvelopeOk
      (get_all_todo ⟨"00000000000000000000000000000001"⟩ (some ⟨0, 10⟩)
        ⟨[("todo_list", []), ("Todo", [⟨5, "t", "d", 1, 0⟩])]⟩) :=
  C10_success_envelope_invariant ⟨"00000000000000000000000000000001"⟩
    ⟨some "a", some "b"⟩
    ⟨[("todo_list", []), ("Todo", [⟨5, "t", "d", 1, 0⟩])]⟩ 5 9
    (some ⟨0, 10⟩)

end Raccoon
